import Mathlib

/-!
Verification of the design-review and versioning subsystem of the
white-label client portal.

The row types below are translated from the Drizzle table declarations in
the shared schema module (tables `designs`, `annotations`, `design_versions`,
`design_approvals`, `design_collaboration`).  The schema module is the only
part of this subsystem present in the repository's source; the operations of
the Annotation Engine, Version Manager and Approval Workflow are declared by
the spec but their handler code is absent, so each operation definition
carries a doc comment saying what it is modelled from.

Statuses and roles are kept as strings, exactly as the schema stores them
(`text` columns with comments enumerating the permitted values).
-/

/-- Row of the `designs` table (schema: id serial, title text notNull,
description text, image_url text notNull, thumbnail_url text,
version integer default 1, status text notNull default "draft",
project_id integer, created_by integer notNull, created_at text notNull,
updated_at text, width integer, height integer, tags json default []). -/
structure Design where
  id : Nat
  title : String
  description : Option String
  imageUrl : String
  thumbnailUrl : Option String
  version : Nat
  status : String
  projectId : Option Nat
  createdBy : Nat
  createdAt : String
  updatedAt : Option String
  width : Option Nat
  height : Option Nat
  tags : List String
  deriving DecidableEq, Repr

/-- A reply entry stored in the `replies` json column of the `annotations`
table: author, content and timestamp. -/
structure Reply where
  authorId : Nat
  content : String
  createdAt : String
  deriving DecidableEq, Repr

/-- Row of the `annotations` table (schema: id serial, design_id integer
notNull, user_id integer notNull, content text notNull, x integer notNull,
y integer notNull, width integer default 150, height integer default 80,
color varchar(7) default "#FF5733", created_at text notNull, updated_at text,
resolved boolean default false, resolved_by integer, resolved_at text,
shape text default "rectangle", path_data text, replies json default []). -/
structure AnnotationRow where
  id : Nat
  designId : Nat
  userId : Nat
  content : String
  x : Int
  y : Int
  width : Nat
  height : Nat
  color : String
  createdAt : String
  updatedAt : Option String
  resolved : Bool
  resolvedBy : Option Nat
  resolvedAt : Option String
  shape : String
  pathData : Option String
  replies : List Reply
  deriving DecidableEq, Repr

/-- Row of the `design_versions` table (schema: id serial, design_id integer
notNull, version_number integer notNull, image_url text notNull,
thumbnail_url text, created_by integer notNull, created_at text notNull,
notes text, width integer, height integer). -/
structure DesignVersion where
  id : Nat
  designId : Nat
  versionNumber : Nat
  imageUrl : String
  thumbnailUrl : Option String
  createdBy : Nat
  createdAt : String
  notes : Option String
  width : Option Nat
  height : Option Nat
  deriving DecidableEq, Repr

/-- Row of the `design_approvals` table (schema: id serial, design_id integer
notNull, user_id integer notNull, status text notNull, comment text,
created_at text notNull, updated_at text). -/
structure DesignApproval where
  id : Nat
  designId : Nat
  userId : Nat
  status : String
  comment : Option String
  createdAt : String
  updatedAt : Option String
  deriving DecidableEq, Repr

/-- Row of the `design_collaboration` table (schema: id serial, design_id
integer notNull, user_id integer notNull, role text notNull default "viewer",
added_by integer notNull, added_at text notNull,
notifications_enabled boolean default true). -/
structure DesignCollaboration where
  id : Nat
  designId : Nat
  userId : Nat
  role : String
  addedBy : Nat
  addedAt : String
  notificationsEnabled : Bool
  deriving DecidableEq, Repr

/-- The entity store: one list of rows per table of the design-review
subsystem. -/
structure Store where
  designs : List Design
  annotations : List AnnotationRow
  designVersions : List DesignVersion
  designApprovals : List DesignApproval
  designCollaboration : List DesignCollaboration
  deriving DecidableEq, Repr

/-- The empty store. -/
def Store.empty : Store :=
  { designs := [], annotations := [], designVersions := [],
    designApprovals := [], designCollaboration := [] }

/-- Error taxonomy of the spec (section 7): validation, not-found,
authorization and conflict errors. -/
inductive ApiError where
  | validation
  | notFound
  | authorization
  | conflict
  deriving DecidableEq, Repr

/-- The collaboration role a user holds on a design, when a
`design_collaboration` row exists for the pair. -/
def roleOf (s : Store) (did uid : Nat) : Option String :=
  (s.designCollaboration.find? (fun c => c.designId == did && c.userId == uid)).map
    (fun c => c.role)

/-- Roles allowed to submit a design approval (spec section 3 invariants:
owner, editor and reviewer may; viewer may not). -/
def approverRole (r : String) : Bool :=
  r == "owner" || r == "editor" || r == "reviewer"

/-- The required-reviewer set of a design: user ids of its
`design_collaboration` rows with role `reviewer`. -/
def reviewersOf (s : Store) (did : Nat) : List Nat :=
  (s.designCollaboration.filter (fun c => c.designId == did && c.role == "reviewer")).map
    (fun c => c.userId)

/-- The current approval verdict of a user on a design.  The store keeps at
most one current approval per (design, user) pair because an approval
resubmission updates the existing row rather than adding one (spec
section 3), so the current verdict is the status of the row found for the
pair. -/
def currentVerdict (s : Store) (did uid : Nat) : Option String :=
  (s.designApprovals.find? (fun a => a.designId == did && a.userId == uid)).map
    (fun a => a.status)

/-- Modelled from the spec (section 4.4, absent from src/): the aggregate
status of a design derived from the current verdict of every required
reviewer.  Step order as specified: any `rejected` wins, then any
`needs-changes` gives `in-review`, then unanimous `approved` gives
`approved`, otherwise `in-review`. -/
def aggregateStatus (s : Store) (did : Nat) : String :=
  let rs := reviewersOf s did
  if rs.any (fun u => currentVerdict s did u == some "rejected") then "rejected"
  else if rs.any (fun u => currentVerdict s did u == some "needs-changes") then "in-review"
  else if rs.all (fun u => currentVerdict s did u == some "approved") then "approved"
  else "in-review"

/-- The claim's three-case description of the aggregate (claim C1 wording):
`rejected` if any member's current verdict is rejected, `approved` if every
member's current verdict is approved, otherwise `in-review`.  Stated from
the claim's words, to be compared with `aggregateStatus`. -/
def claimedAggregate (s : Store) (did : Nat) : String :=
  let rs := reviewersOf s did
  if rs.any (fun u => currentVerdict s did u == some "rejected") then "rejected"
  else if rs.all (fun u => currentVerdict s did u == some "approved") then "approved"
  else "in-review"

/-- Replace every design row with the given id using `f`. -/
def updateDesignRow (s : Store) (did : Nat) (f : Design → Design) : Store :=
  { s with designs := s.designs.map (fun d => if d.id == did then f d else d) }

/-- The approval rows after an upsert: the row for the (design, user) pair
is updated in place when present, appended otherwise (spec section 3: at
most one current approval per pair; a resubmission updates rather than
duplicates). -/
def upsertedApprovals (s : Store) (aid did uid : Nat) (verdict : String)
    (comment : Option String) (now : String) : List DesignApproval :=
  if s.designApprovals.any (fun a => a.designId == did && a.userId == uid) then
    s.designApprovals.map (fun a =>
      if a.designId == did && a.userId == uid then
        { a with status := verdict, comment := comment, updatedAt := some now }
      else a)
  else
    s.designApprovals ++
      [{ id := aid, designId := did, userId := uid, status := verdict,
         comment := comment, createdAt := now, updatedAt := none }]

/-- The store after the approval row for the (design, user) pair has been
updated in place (when present) or appended (otherwise), before any status
recomputation. -/
def afterApprovalUpsert (s : Store) (aid did uid : Nat) (verdict : String)
    (comment : Option String) (now : String) : Store :=
  { s with designApprovals := upsertedApprovals s aid did uid verdict comment now }

/-- Modelled from the spec (sections 4.4 and 6, absent from src/): upsert of
a design approval.  The design must exist; the caller must hold role owner,
editor or reviewer on it (a viewer, or a user with no collaboration row,
gets an authorization error).  The approval row for the (design, user) pair
is upserted; then, when the design has at least one required reviewer, the
design's status is recomputed by `aggregateStatus`. -/
def upsertApproval (s : Store) (aid did uid : Nat) (verdict : String)
    (comment : Option String) (now : String) : Except ApiError Store :=
  if (s.designs.find? (fun d => d.id == did)).isNone then .error .notFound
  else
    match roleOf s did uid with
    | none => .error .authorization
    | some r =>
      if approverRole r then
        if (reviewersOf (afterApprovalUpsert s aid did uid verdict comment now) did).isEmpty then
          .ok (afterApprovalUpsert s aid did uid verdict comment now)
        else
          .ok (updateDesignRow (afterApprovalUpsert s aid did uid verdict comment now) did
            (fun d =>
              { d with
                status := aggregateStatus (afterApprovalUpsert s aid did uid verdict comment now) did }))
      else .error .authorization

/-- The version numbers of the `design_versions` rows of one design. -/
def versionNumbersOf (s : Store) (did : Nat) : List Nat :=
  (s.designVersions.filter (fun v => v.designId == did)).map (fun v => v.versionNumber)

/-- The highest existing version number of a design (0 when it has no
version rows). -/
def maxVersionNumber (s : Store) (did : Nat) : Nat :=
  (versionNumbersOf s did).foldr max 0

/-- Modelled from the spec (section 4.3, absent from src/): publish a new
version of a design.  A `design_versions` row is created with
`versionNumber = currentMax + 1`, and the design's image url, thumbnail,
width, height and version fields are updated to the new version's values.
The status is forced to `in-review` when the design has any reviewers
assigned, and left unchanged when none are. -/
def publishVersion (s : Store) (vid did : Nat) (imageUrl : String)
    (thumbnailUrl : Option String) (width height : Option Nat)
    (notes : Option String) (uid : Nat) (now : String) : Except ApiError Store :=
  if (s.designs.find? (fun d => d.id == did)).isNone then .error .notFound
  else
    .ok (updateDesignRow
      { s with designVersions := s.designVersions ++
          [{ id := vid, designId := did, versionNumber := maxVersionNumber s did + 1,
             imageUrl := imageUrl, thumbnailUrl := thumbnailUrl, createdBy := uid,
             createdAt := now, notes := notes, width := width, height := height }] }
      did (fun d =>
      { d with imageUrl := imageUrl, thumbnailUrl := thumbnailUrl,
               width := width, height := height, version := maxVersionNumber s did + 1,
               status := if (reviewersOf s did).isEmpty then d.status else "in-review" }))

/-- Modelled from the spec (sections 3 and 4.4, absent from src/): creation
of a design.  A design starts in status `draft` with version 1, and its
initial image is registered as `design_versions` row number 1, so that the
version sequence starts at 1 as the spec requires. -/
def createDesign (s : Store) (did vid : Nat) (title : String)
    (description : Option String) (imageUrl : String)
    (thumbnailUrl : Option String) (projectId : Option Nat) (uid : Nat)
    (now : String) (width height : Option Nat) (tags : List String) : Store :=
  { s with
    designs := s.designs ++
      [{ id := did, title := title, description := description,
         imageUrl := imageUrl, thumbnailUrl := thumbnailUrl, version := 1,
         status := "draft", projectId := projectId, createdBy := uid,
         createdAt := now, updatedAt := none, width := width, height := height,
         tags := tags }],
    designVersions := s.designVersions ++
      [{ id := vid, designId := did, versionNumber := 1, imageUrl := imageUrl,
         thumbnailUrl := thumbnailUrl, createdBy := uid, createdAt := now,
         notes := none, width := width, height := height }] }

/-- Payload accepted by `insertDesignCollaborationSchema` (source: pick of
designId, userId, role, addedBy, addedAt, notificationsEnabled; role and
notificationsEnabled have column defaults and may be omitted). -/
structure InsertDesignCollaboration where
  designId : Nat
  userId : Nat
  role : Option String
  addedBy : Nat
  addedAt : String
  notificationsEnabled : Option Bool
  deriving DecidableEq, Repr

/-- Insert of a `design_collaboration` row, applying the column defaults of
the source table: role defaults to "viewer", notifications_enabled to
true. -/
def insertDesignCollaboration (id : Nat) (p : InsertDesignCollaboration) :
    DesignCollaboration :=
  { id := id, designId := p.designId, userId := p.userId,
    role := p.role.getD "viewer", addedBy := p.addedBy, addedAt := p.addedAt,
    notificationsEnabled := p.notificationsEnabled.getD true }

/-- Payload accepted by `insertDesignSchema` (source: pick of title,
description, imageUrl, thumbnailUrl, version, status, projectId, createdBy,
createdAt, updatedAt, width, height, tags).  Fields whose columns are
nullable or carry defaults may be omitted; note that `status` and `version`
are among the picked fields. -/
structure InsertDesign where
  title : String
  description : Option String
  imageUrl : String
  thumbnailUrl : Option String
  version : Option Nat
  status : Option String
  projectId : Option Nat
  createdBy : Nat
  createdAt : String
  updatedAt : Option String
  width : Option Nat
  height : Option Nat
  tags : List String
  deriving DecidableEq, Repr

/-- Insert of a `designs` row from an `insertDesignSchema` payload, applying
the column defaults of the source table: version defaults to 1, status to
"draft"; a payload value, when present, is stored as given. -/
def insertDesign (id : Nat) (p : InsertDesign) : Design :=
  { id := id, title := p.title, description := p.description,
    imageUrl := p.imageUrl, thumbnailUrl := p.thumbnailUrl,
    version := p.version.getD 1, status := p.status.getD "draft",
    projectId := p.projectId, createdBy := p.createdBy,
    createdAt := p.createdAt, updatedAt := p.updatedAt, width := p.width,
    height := p.height, tags := p.tags }

/-- Modelled from the spec (section 4.2, absent from src/): creation of an
annotation row.  The design must exist and the caller must hold some
collaboration role on it (any role may annotate; only approvals are
role-restricted).  Shape `freeform` requires a non-empty `pathData`; every
other shape ignores the `pathData` argument (nothing of it is stored).  The
new row starts unresolved with the column defaults of the source table
(width 150, height 80, color "#FF5733", empty replies). -/
def createAnn (s : Store) (aid did uid : Nat) (content : String) (x y : Int)
    (shape : String) (path : Option String) (now : String) :
    Except ApiError Store :=
  if (s.designs.find? (fun d => d.id == did)).isNone then .error .notFound
  else if (roleOf s did uid).isNone then .error .authorization
  else if shape == "freeform" && path.getD "" == "" then .error .validation
  else
    .ok { s with annotations := s.annotations ++
      [{ id := aid, designId := did, userId := uid, content := content,
         x := x, y := y, width := 150, height := 80, color := "#FF5733",
         createdAt := now, updatedAt := none, resolved := false,
         resolvedBy := none, resolvedAt := none, shape := shape,
         pathData := if shape == "freeform" then path else none,
         replies := [] }] }

/-- Modelled from the spec (section 4.2, absent from src/): the effect of a
resolve call on one annotation row.  Resolving an already-resolved row is a
no-op; otherwise resolved, resolvedBy and resolvedAt are set.  The source
`annotations` table has no resolved-note column, so the optional note of the
spec's signature is accepted and not stored. -/
def resolveRow (a : AnnotationRow) (uid : Nat) (_note : Option String)
    (now : String) : AnnotationRow :=
  if a.resolved then a
  else { a with resolved := true, resolvedBy := some uid, resolvedAt := some now }

/-- Modelled from the spec (section 4.2, absent from src/): resolve an
annotation by id over the store. -/
def resolveAnn (s : Store) (aid uid : Nat) (note : Option String)
    (now : String) : Store :=
  { s with annotations := s.annotations.map (fun a =>
      if a.id == aid then resolveRow a uid note now else a) }

/-- Whether a user may reopen an annotation: its author, its resolver, or a
design owner or editor (spec section 4.2). -/
def canReopen (s : Store) (a : AnnotationRow) (uid : Nat) : Bool :=
  a.userId == uid || a.resolvedBy == some uid ||
    (roleOf s a.designId uid == some "owner" || roleOf s a.designId uid == some "editor")

/-- Modelled from the spec (section 4.2, absent from src/): reopen an
annotation, clearing resolved, resolvedBy and resolvedAt.  Allowed only for
the annotation author, the resolver, or a design owner or editor. -/
def reopenAnn (s : Store) (aid uid : Nat) : Except ApiError Store :=
  match s.annotations.find? (fun a => a.id == aid) with
  | none => .error .notFound
  | some a =>
    if canReopen s a uid then
      .ok { s with annotations := s.annotations.map (fun b =>
        if b.id == aid then
          { b with resolved := false, resolvedBy := none, resolvedAt := none }
        else b) }
    else .error .authorization

/-- Modelled from the spec (section 4.2, absent from src/): append a reply
to an annotation's ordered reply sequence. -/
def addReply (s : Store) (aid uid : Nat) (content : String) (now : String) :
    Store :=
  { s with annotations := s.annotations.map (fun a =>
      if a.id == aid then
        { a with replies := a.replies ++
            [{ authorId := uid, content := content, createdAt := now }] }
      else a) }

/-- Modelled from the spec (absent from src/): a generic annotation update
of content, position, size and color.  Resolution fields, shape and path
data are not among the updatable fields. -/
def updateAnn (s : Store) (aid : Nat) (content : String) (x y : Int)
    (width height : Nat) (color : String) (now : String) : Store :=
  { s with annotations := s.annotations.map (fun a =>
      if a.id == aid then
        { a with content := content, x := x, y := y, width := width,
                 height := height, color := color, updatedAt := some now }
      else a) }

/-- One operation of the subsystem applied to the store.  Fallible
operations step only when they succeed; design creation requires a fresh id,
as the serial primary key of the source table guarantees. -/
inductive Step : Store → Store → Prop where
  | createDesign (s : Store) (did vid : Nat) (title : String)
      (description : Option String) (imageUrl : String)
      (thumbnailUrl : Option String) (projectId : Option Nat) (uid : Nat)
      (now : String) (width height : Option Nat) (tags : List String)
      (hfresh : ∀ d ∈ s.designs, d.id ≠ did) :
      Step s (createDesign s did vid title description imageUrl thumbnailUrl
        projectId uid now width height tags)
  | publishVersion (s s' : Store) (vid did : Nat) (imageUrl : String)
      (thumbnailUrl : Option String) (width height : Option Nat)
      (notes : Option String) (uid : Nat) (now : String)
      (h : publishVersion s vid did imageUrl thumbnailUrl width height notes
        uid now = .ok s') : Step s s'
  | upsertApproval (s s' : Store) (aid did uid : Nat) (verdict : String)
      (comment : Option String) (now : String)
      (h : upsertApproval s aid did uid verdict comment now = .ok s') :
      Step s s'
  | addCollaborator (s : Store) (id : Nat) (p : InsertDesignCollaboration) :
      Step s { s with designCollaboration :=
        s.designCollaboration ++ [insertDesignCollaboration id p] }
  | createAnn (s s' : Store) (aid did uid : Nat) (content : String)
      (x y : Int) (shape : String) (path : Option String) (now : String)
      (h : createAnn s aid did uid content x y shape path now = .ok s') :
      Step s s'
  | resolveAnn (s : Store) (aid uid : Nat) (note : Option String)
      (now : String) : Step s (resolveAnn s aid uid note now)
  | reopenAnn (s s' : Store) (aid uid : Nat)
      (h : reopenAnn s aid uid = .ok s') : Step s s'
  | addReply (s : Store) (aid uid : Nat) (content : String) (now : String) :
      Step s (addReply s aid uid content now)
  | updateAnn (s : Store) (aid : Nat) (content : String) (x y : Int)
      (width height : Nat) (color : String) (now : String) :
      Step s (updateAnn s aid content x y width height color now)

/-- Stores reachable from the empty store by the subsystem's operations. -/
inductive Reachable : Store → Prop where
  | init : Reachable Store.empty
  | step {s s' : Store} : Reachable s → Step s s' → Reachable s'

/-- Referential integrity of version rows: every `design_versions` row
references an existing design. -/
def RefIntVersions (s : Store) : Prop :=
  ∀ v ∈ s.designVersions, ∃ d ∈ s.designs, d.id = v.designId

/-- Exactness of the version sequence: for every design row, the version
numbers present for its id are exactly 1 .. version. -/
def VersionNumbersExact (s : Store) : Prop :=
  ∀ d ∈ s.designs, ∀ k : Nat, k ∈ versionNumbersOf s d.id ↔ 1 ≤ k ∧ k ≤ d.version

/-- The version-sequence invariant carried through the reachability
induction. -/
def VersionInv (s : Store) : Prop :=
  RefIntVersions s ∧ VersionNumbersExact s

/-- Consistency of one annotation row's resolution fields:  resolved rows
carry a resolver and a timestamp, unresolved rows carry neither. -/
def ResolutionConsistent (a : AnnotationRow) : Prop :=
  (a.resolved = true → a.resolvedBy ≠ none ∧ a.resolvedAt ≠ none) ∧
  (a.resolved = false → a.resolvedBy = none ∧ a.resolvedAt = none)

/-- The resolution invariant over the store. -/
def AnnInv (s : Store) : Prop :=
  ∀ a ∈ s.annotations, ResolutionConsistent a

/-- A concrete store used by the witness theorems: one design created by
user 7. -/
def demoStore : Store :=
  createDesign Store.empty 1 1 "Landing" none "img1" none none 7 "t0" none none []

/-- The single design row of `demoStore`. -/
def demoDesign : Design :=
  { id := 1, title := "Landing", description := none, imageUrl := "img1",
    thumbnailUrl := none, version := 1, status := "draft", projectId := none,
    createdBy := 7, createdAt := "t0", updatedAt := none, width := none,
    height := none, tags := [] }

/-- Collaboration payload adding user 7 as reviewer of design 1. -/
def demoCollab : InsertDesignCollaboration :=
  { designId := 1, userId := 7, role := some "reviewer", addedBy := 7,
    addedAt := "t0", notificationsEnabled := none }

/-- Store `demoStore` with user 7 added as reviewer of design 1 (the
addCollaborator step's target store). -/
def demoS2 : Store :=
  { demoStore with designCollaboration :=
      demoStore.designCollaboration ++ [insertDesignCollaboration 1 demoCollab] }

/-- Store `demoS2` after reviewer 7 submits an `approved` verdict on design 1. -/
def demoS4 : Store :=
  (upsertApproval demoS2 20 1 7 "approved" none "t2").toOption.getD Store.empty

/-- Store `demoS2` after an annotation is created on design 1 by user 7. -/
def demoS3 : Store :=
  (createAnn demoS2 10 1 7 "looks off" 3 4 "rectangle" none "t1").toOption.getD Store.empty

/-- Store `demoStore` after a second version of design 1 is published. -/
def demoS5 : Store :=
  (publishVersion demoStore 2 1 "img2" none none none none 7 "t3").toOption.getD Store.empty

/-- Collaboration payload whose role field is omitted. -/
def demoCollabNoRole : InsertDesignCollaboration :=
  { designId := 1, userId := 9, role := none, addedBy := 7, addedAt := "t0",
    notificationsEnabled := none }

/-- Store `demoStore` with user 9 added with an omitted role (stored as
viewer). -/
def demoViewerStore : Store :=
  { demoStore with designCollaboration :=
      demoStore.designCollaboration ++ [insertDesignCollaboration 2 demoCollabNoRole] }

/-- A design-insert payload whose status field is supplied by the client. -/
def demoInsertApproved : InsertDesign :=
  { title := "Landing", description := none, imageUrl := "img1",
    thumbnailUrl := none, version := none, status := some "approved",
    projectId := none, createdBy := 7, createdAt := "t0", updatedAt := none,
    width := none, height := none, tags := [] }

lemma le_foldr_max (l : List Nat) (m : Nat) (h : m ∈ l) : m ≤ l.foldr max 0 := by
  induction l with
  | nil => cases h
  | cons a t ih =>
    rcases List.mem_cons.mp h with h | h
    · simp [h, le_max_iff]
    · simp only [List.foldr_cons]
      exact le_trans (ih h) (le_max_right _ _)

lemma foldr_max_le (l : List Nat) (m : Nat) (h : ∀ x ∈ l, x ≤ m) : l.foldr max 0 ≤ m := by
  induction l with
  | nil => simp
  | cons a t ih =>
    simp only [List.foldr_cons]
    exact max_le (h a (by simp)) (ih fun x hx => h x (by simp [hx]))

lemma foldr_max_of_interval (l : List Nat) (m : Nat)
    (h : ∀ k : Nat, k ∈ l ↔ 1 ≤ k ∧ k ≤ m) : l.foldr max 0 = m := by
  rcases Nat.eq_zero_or_pos m with hm | hm
  · subst hm
    have hnil : l = [] :=
      List.eq_nil_iff_forall_not_mem.mpr fun a ha => by
        have := (h a).mp ha; omega
    simp [hnil]
  · exact le_antisymm
      (foldr_max_le _ _ fun x hx => ((h x).mp hx).2)
      (le_foldr_max _ _ ((h m).mpr ⟨hm, le_refl m⟩))

lemma resolveRow_resolved (a : AnnotationRow) (uid : Nat) (note : Option String)
    (now : String) : (resolveRow a uid note now).resolved = true := by
  by_cases h : a.resolved <;> simp [resolveRow, h]

lemma resolveRow_id (a : AnnotationRow) (uid : Nat) (note : Option String)
    (now : String) : (resolveRow a uid note now).id = a.id := by
  by_cases h : a.resolved <;> simp [resolveRow, h]

lemma resolveRow_of_resolved (a : AnnotationRow) (uid : Nat) (note : Option String)
    (now : String) (h : a.resolved = true) : resolveRow a uid note now = a := by
  simp [resolveRow, h]

/-- C5: resolving an annotation that is already resolved is a no-op: after a
first resolve call, a second resolve call with any caller, note and
timestamp returns the store of the first call unchanged — in particular
`resolvedBy` and `resolvedAt` keep the values set by the first resolve. -/
theorem resolve_idempotent (s : Store) (aid u1 u2 : Nat)
    (n1 n2 : Option String) (t1 t2 : String) :
    resolveAnn (resolveAnn s aid u1 n1 t1) aid u2 n2 t2 =
      resolveAnn s aid u1 n1 t1 := by
  have key :
      (s.annotations.map (fun a => if a.id == aid then resolveRow a u1 n1 t1 else a)).map
        (fun a => if a.id == aid then resolveRow a u2 n2 t2 else a) =
      s.annotations.map (fun a => if a.id == aid then resolveRow a u1 n1 t1 else a) := by
    rw [List.map_map]
    apply List.map_congr_left
    intro a _
    by_cases h : a.id == aid
    · simp only [Function.comp, h, if_pos, resolveRow_id]
      rw [resolveRow_of_resolved _ _ _ _ (resolveRow_resolved a u1 n1 t1)]
    · simp [Function.comp, h]
  unfold resolveAnn
  dsimp only
  rw [key]

/-- C9 counterexample: a generic design insert accepted by
`insertDesignSchema` does take `status` from the request payload — a payload
carrying `status = "approved"` is stored with that status, not with the
derived/default `"draft"`. -/
theorem insertDesign_status_from_payload_cex :
    (insertDesign 1 demoInsertApproved).status = "approved" ∧
    (insertDesign 1 demoInsertApproved).status ≠ "draft" := by
  constructor <;> decide

/-- C9 amended: `insertDesignSchema` picks `status` (and `version`), so a
generic client-issued create stores the payload's status verbatim when one
is supplied, falling back to the column default `"draft"` only when the
payload omits it. -/
theorem insertDesign_status_amended (id : Nat) (p : InsertDesign) :
    (insertDesign id p).status = p.status.getD "draft" ∧
    (insertDesign id p).version = p.version.getD 1 := by
  constructor <;> rfl

/-- C10: a collaboration record created with the role field omitted is
stored with role `"viewer"`, the least-privileged role — the one
`approverRole` excludes from submitting approvals. -/
theorem collaborator_default_role (id : Nat) (p : InsertDesignCollaboration)
    (h : p.role = none) :
    (insertDesignCollaboration id p).role = "viewer" ∧
    approverRole (insertDesignCollaboration id p).role = false := by
  simp [insertDesignCollaboration, h, approverRole]

/-- Witness for C10 at the concrete payload `demoCollabNoRole`. -/
theorem collaborator_default_role_witness :
    (insertDesignCollaboration 2 demoCollabNoRole).role = "viewer" ∧
    approverRole (insertDesignCollaboration 2 demoCollabNoRole).role = false :=
  collaborator_default_role 2 demoCollabNoRole (by decide)

lemma aggregateStatus_eq_claimed (s : Store) (did : Nat) :
    aggregateStatus s did = claimedAggregate s did := by
  unfold aggregateStatus claimedAggregate
  by_cases h1 : (reviewersOf s did).any
      (fun u => currentVerdict s did u == some "rejected") = true
  · simp [h1]
  · by_cases h2 : (reviewersOf s did).any
        (fun u => currentVerdict s did u == some "needs-changes") = true
    · have hall : (reviewersOf s did).all
          (fun u => currentVerdict s did u == some "approved") = false := by
        rcases List.any_eq_true.mp h2 with ⟨u, hu, hv⟩
        rw [beq_iff_eq] at hv
        refine Bool.eq_false_iff.mpr fun hall => ?_
        have hu2 := List.all_eq_true.mp hall u hu
        rw [beq_iff_eq, hv] at hu2
        simp at hu2
      simp [h1, h2, hall]
    · by_cases h3 : (reviewersOf s did).all
          (fun u => currentVerdict s did u == some "approved") = true
      · simp [h1, h2, h3]
      · simp [h1, h2, h3]

lemma updateDesignRow_status (s : Store) (did : Nat) (st : String) :
    ∀ d ∈ (updateDesignRow s did (fun d => { d with status := st })).designs,
      d.id = did → d.status = st := by
  intro d hd hdid
  rcases List.mem_map.mp hd with ⟨d0, hd0, rfl⟩
  by_cases h : d0.id == did
  · simp [h]
  · rw [if_neg (by simpa using h)]
    rw [if_neg (by simpa using h)] at hdid
    exact absurd hdid (by simpa using h)

/-- C1: after a successful approval upsert on a design whose required
reviewer set is non-empty, every design row with that id carries the status
described by the claim's three cases — rejected if any reviewer's current
verdict is rejected, approved if every reviewer's current verdict is
approved, in-review otherwise. -/
theorem upsertApproval_derives_claimed_aggregate
    (s s' : Store) (aid did uid : Nat) (verdict : String)
    (comment : Option String) (now : String)
    (h : upsertApproval s aid did uid verdict comment now = .ok s')
    (hR : reviewersOf s' did ≠ []) :
    ∀ d ∈ s'.designs, d.id = did → d.status = claimedAggregate s' did := by
  unfold upsertApproval at h
  split at h
  · exact absurd h (by simp)
  · split at h
    · exact absurd h (by simp)
    · split at h
      · split at h
        · cases h
          exact absurd (List.isEmpty_iff.mp (by assumption)) hR
        · cases h
          intro d hd hdid
          have hst := updateDesignRow_status _ _ _ d hd hdid
          rw [hst, aggregateStatus_eq_claimed]
          rfl
      · exact absurd h (by simp)

/-- Witness for C1 at a concrete run: design 1 with single reviewer 7, who
submits an `approved` verdict; the stored design row carries the claim's
aggregate for the post-upsert store. -/
theorem upsertApproval_derives_claimed_aggregate_witness :
    ({ demoDesign with status := "approved" } : Design).status =
      claimedAggregate demoS4 1 :=
  upsertApproval_derives_claimed_aggregate demoS2 demoS4 20 1 7 "approved"
    none "t2" (by rfl) (by decide) { demoDesign with status := "approved" }
    (by decide) rfl

lemma upsertApproval_ok {s s' : Store} {aid did uid : Nat} {verdict : String}
    {comment : Option String} {now : String}
    (h : upsertApproval s aid did uid verdict comment now = .ok s') :
    s'.annotations = s.annotations ∧ s'.designVersions = s.designVersions ∧
    s'.designCollaboration = s.designCollaboration ∧
    (s'.designs = s.designs ∨ ∃ st, s'.designs =
      s.designs.map (fun d => if d.id == did then { d with status := st } else d)) := by
  unfold upsertApproval at h
  split at h
  · exact absurd h (by simp)
  · split at h
    · exact absurd h (by simp)
    · split at h
      · split at h
        · cases h
          exact ⟨rfl, rfl, rfl, Or.inl rfl⟩
        · cases h
          exact ⟨rfl, rfl, rfl, Or.inr ⟨_, rfl⟩⟩
      · exact absurd h (by simp)

lemma publishVersion_ok {s s' : Store} {vid did : Nat} {img : String}
    {th : Option String} {w hh : Option Nat} {notes : Option String}
    {uid : Nat} {now : String}
    (h : publishVersion s vid did img th w hh notes uid now = .ok s') :
    (∃ d0 ∈ s.designs, d0.id = did) ∧
    s'.annotations = s.annotations ∧
    s'.designCollaboration = s.designCollaboration ∧
    s'.designVersions = s.designVersions ++
      [{ id := vid, designId := did, versionNumber := maxVersionNumber s did + 1,
         imageUrl := img, thumbnailUrl := th, createdBy := uid, createdAt := now,
         notes := notes, width := w, height := hh }] ∧
    s'.designs = s.designs.map (fun d =>
      if d.id == did then
        { d with imageUrl := img, thumbnailUrl := th, width := w, height := hh,
                 version := maxVersionNumber s did + 1,
                 status := if (reviewersOf s did).isEmpty then d.status
                           else "in-review" }
      else d) := by
  unfold publishVersion at h
  split at h
  · exact absurd h (by simp)
  · cases h
    refine ⟨?_, rfl, rfl, rfl, rfl⟩
    rename_i hfind
    cases hf : s.designs.find? (fun d => d.id == did) with
    | none => rw [hf] at hfind; simp at hfind
    | some d0 =>
      exact ⟨d0, List.mem_of_find?_eq_some hf,
        by simpa using List.find?_some hf⟩

lemma createAnn_ok {s s' : Store} {aid did uid : Nat} {content : String}
    {x y : Int} {shape : String} {path : Option String} {now : String}
    (h : createAnn s aid did uid content x y shape path now = .ok s') :
    s' = { s with annotations := s.annotations ++
      [{ id := aid, designId := did, userId := uid, content := content, x := x,
         y := y, width := 150, height := 80, color := "#FF5733",
         createdAt := now, updatedAt := none, resolved := false,
         resolvedBy := none, resolvedAt := none, shape := shape,
         pathData := if shape == "freeform" then path else none,
         replies := [] }] } := by
  unfold createAnn at h
  split at h
  · exact absurd h (by simp)
  · split at h
    · exact absurd h (by simp)
    · split at h
      · exact absurd h (by simp)
      · cases h; rfl

lemma reopenAnn_ok {s s' : Store} {aid uid : Nat}
    (h : reopenAnn s aid uid = .ok s') :
    s' = { s with annotations := s.annotations.map (fun b =>
      if b.id == aid then
        { b with resolved := false, resolvedBy := none, resolvedAt := none }
      else b) } := by
  unfold reopenAnn at h
  split at h
  · exact absurd h (by simp)
  · split at h
    · cases h; rfl
    · exact absurd h (by simp)

/-- C3: a successful publishVersion appends exactly one `design_versions`
row, numbered previous-maximum + 1, and rewrites every design row with the
published id so that its imageUrl, thumbnailUrl, width, height and version
take the new version's values; rows of other designs are untouched. -/
theorem publishVersion_creates_next_version
    (s s' : Store) (vid did : Nat) (img : String) (th : Option String)
    (w hh : Option Nat) (notes : Option String) (uid : Nat) (now : String)
    (h : publishVersion s vid did img th w hh notes uid now = .ok s') :
    s'.designVersions = s.designVersions ++
      [{ id := vid, designId := did, versionNumber := maxVersionNumber s did + 1,
         imageUrl := img, thumbnailUrl := th, createdBy := uid, createdAt := now,
         notes := notes, width := w, height := hh }] ∧
    s'.designs.length = s.designs.length ∧
    ∀ i : Nat, ∀ hi : i < s.designs.length, ∀ hi2 : i < s'.designs.length,
      ((s.designs.get ⟨i, hi⟩).id = did →
        (s'.designs.get ⟨i, hi2⟩).imageUrl = img ∧
        (s'.designs.get ⟨i, hi2⟩).thumbnailUrl = th ∧
        (s'.designs.get ⟨i, hi2⟩).width = w ∧
        (s'.designs.get ⟨i, hi2⟩).height = hh ∧
        (s'.designs.get ⟨i, hi2⟩).version = maxVersionNumber s did + 1) ∧
      ((s.designs.get ⟨i, hi⟩).id ≠ did →
        s'.designs.get ⟨i, hi2⟩ = s.designs.get ⟨i, hi⟩) := by
  obtain ⟨-, -, -, hv, hd⟩ := publishVersion_ok h
  refine ⟨hv, by rw [hd]; simp, ?_⟩
  intro i hi hi2
  have hg : s'.designs.get ⟨i, hi2⟩ =
      (fun d => if d.id == did then
        { d with imageUrl := img, thumbnailUrl := th, width := w, height := hh,
                 version := maxVersionNumber s did + 1,
                 status := if (reviewersOf s did).isEmpty then d.status
                           else "in-review" }
      else d) (s.designs.get ⟨i, hi⟩) := by
    simp [List.get_eq_getElem, hd]
  constructor
  · intro hid
    simp only [hg]
    rw [if_pos (by simpa using hid)]
    exact ⟨rfl, rfl, rfl, rfl, rfl⟩
  · intro hid
    simp only [hg]
    rw [if_neg (by simpa using hid)]

/-- Witness for C3 at a concrete run: publishing a second version of design
1 in `demoStore`. -/
theorem publishVersion_creates_next_version_witness :
    demoS5.designVersions = demoStore.designVersions ++
      [{ id := 2, designId := 1, versionNumber := maxVersionNumber demoStore 1 + 1,
         imageUrl := "img2", thumbnailUrl := none, createdBy := 7,
         createdAt := "t3", notes := none, width := none, height := none }] ∧
    demoS5.designs.length = demoStore.designs.length ∧
    ∀ i : Nat, ∀ hi : i < demoStore.designs.length,
      ∀ hi2 : i < demoS5.designs.length,
      ((demoStore.designs.get ⟨i, hi⟩).id = 1 →
        (demoS5.designs.get ⟨i, hi2⟩).imageUrl = "img2" ∧
        (demoS5.designs.get ⟨i, hi2⟩).thumbnailUrl = none ∧
        (demoS5.designs.get ⟨i, hi2⟩).width = none ∧
        (demoS5.designs.get ⟨i, hi2⟩).height = none ∧
        (demoS5.designs.get ⟨i, hi2⟩).version = maxVersionNumber demoStore 1 + 1) ∧
      ((demoStore.designs.get ⟨i, hi⟩).id ≠ 1 →
        demoS5.designs.get ⟨i, hi2⟩ = demoStore.designs.get ⟨i, hi⟩) :=
  publishVersion_creates_next_version demoStore demoS5 2 1 "img2" none none
    none none 7 "t3" (by rfl)

/-- C4: publishVersion forces the published design's status to `in-review`
when the design has at least one reviewer assigned, and leaves its status
unchanged (in particular `draft` stays `draft`) when no reviewers are
assigned; statuses of other designs are untouched. -/
theorem publishVersion_status_reset
    (s s' : Store) (vid did : Nat) (img : String) (th : Option String)
    (w hh : Option Nat) (notes : Option String) (uid : Nat) (now : String)
    (h : publishVersion s vid did img th w hh notes uid now = .ok s') :
    s'.designs.length = s.designs.length ∧
    ∀ i : Nat, ∀ hi : i < s.designs.length, ∀ hi2 : i < s'.designs.length,
      ((s.designs.get ⟨i, hi⟩).id = did →
        (s'.designs.get ⟨i, hi2⟩).status =
          (if reviewersOf s did = [] then (s.designs.get ⟨i, hi⟩).status
           else "in-review")) ∧
      ((s.designs.get ⟨i, hi⟩).id ≠ did →
        (s'.designs.get ⟨i, hi2⟩).status = (s.designs.get ⟨i, hi⟩).status) := by
  obtain ⟨-, -, -, hv, hd⟩ := publishVersion_ok h
  refine ⟨by rw [hd]; simp, ?_⟩
  intro i hi hi2
  have hg : s'.designs.get ⟨i, hi2⟩ =
      (fun d => if d.id == did then
        { d with imageUrl := img, thumbnailUrl := th, width := w, height := hh,
                 version := maxVersionNumber s did + 1,
                 status := if (reviewersOf s did).isEmpty then d.status
                           else "in-review" }
      else d) (s.designs.get ⟨i, hi⟩) := by
    simp [List.get_eq_getElem, hd]
  constructor
  · intro hid
    simp only [hg]
    rw [if_pos (by simpa using hid)]
    simp [List.isEmpty_iff]
  · intro hid
    simp only [hg]
    rw [if_neg (by simpa using hid)]

/-- Witness for C4: publishing version 2 of design 1 in `demoStore`, which
has no reviewers, so the status stays `draft`. -/
theorem publishVersion_status_reset_witness :
    demoS5.designs.length = demoStore.designs.length ∧
    ∀ i : Nat, ∀ hi : i < demoStore.designs.length,
      ∀ hi2 : i < demoS5.designs.length,
      ((demoStore.designs.get ⟨i, hi⟩).id = 1 →
        (demoS5.designs.get ⟨i, hi2⟩).status =
          (if reviewersOf demoStore 1 = [] then
            (demoStore.designs.get ⟨i, hi⟩).status
           else "in-review")) ∧
      ((demoStore.designs.get ⟨i, hi⟩).id ≠ 1 →
        (demoS5.designs.get ⟨i, hi2⟩).status =
          (demoStore.designs.get ⟨i, hi⟩).status) :=
  publishVersion_status_reset demoStore demoS5 2 1 "img2" none none none
    none 7 "t3" (by rfl)

/-- C7: creating an annotation with shape `freeform` and an empty or missing
`pathData` fails with a validation error (on an existing design with an
authorized caller, so no earlier check masks it), and nothing is stored; for
any other shape the `pathData` argument is ignored — the outcome is the same
for any two path arguments — and creation never fails with a validation
error. -/
theorem createAnn_freeform_requires_path
    (s : Store) (aid did uid : Nat) (content : String) (x y : Int)
    (shape : String) (path path2 : Option String) (now : String) :
    (shape = "freeform" → (path = none ∨ path = some "") →
      (s.designs.find? (fun d => d.id == did)).isNone = false →
      (roleOf s did uid).isNone = false →
      createAnn s aid did uid content x y shape path now =
        .error .validation) ∧
    (shape ≠ "freeform" →
      createAnn s aid did uid content x y shape path now =
        createAnn s aid did uid content x y shape path2 now ∧
      createAnn s aid did uid content x y shape path now ≠
        .error .validation) := by
  constructor
  · intro hshape hpath hfind hrole
    subst hshape
    unfold createAnn
    rw [if_neg (by simp [hfind]), if_neg (by simp [hrole]),
      if_pos (by rcases hpath with h | h <;> simp [h])]
  · intro hshape
    have hb : (shape == "freeform") = false := beq_eq_false_iff_ne.mpr hshape
    unfold createAnn
    rw [hb]
    constructor
    · rfl
    · split
      · simp
      · split
        · simp
        · rw [if_neg (by simp)]
          simp

/-- Witness for C7: on `demoS2` (design 1 exists, user 7 is a collaborator)
a freeform annotation without path data is rejected as a validation error,
and a rectangle annotation ignores the path argument. -/
theorem createAnn_freeform_requires_path_witness :
    createAnn demoS2 10 1 7 "looks off" 3 4 "freeform" none "t1" =
      .error ApiError.validation ∧
    createAnn demoS2 10 1 7 "looks off" 3 4 "rectangle" none "t1" =
      createAnn demoS2 10 1 7 "looks off" 3 4 "rectangle" (some "M0 0") "t1" :=
  ⟨(createAnn_freeform_requires_path demoS2 10 1 7 "looks off" 3 4 "freeform"
      none none "t1").1 rfl (Or.inl rfl) (by decide) (by decide),
   ((createAnn_freeform_requires_path demoS2 10 1 7 "looks off" 3 4
      "rectangle" none (some "M0 0") "t1").2 (by decide)).1⟩

/-- C8: on an existing design, an approval submission from a user whose
collaboration role is `viewer` — or who has no collaboration row at all —
fails with an authorization error (so no approval row is written), and a
submission can only succeed when the caller's role is owner, editor or
reviewer. -/
theorem approval_requires_privileged_role
    (s : Store) (aid did uid : Nat) (verdict : String)
    (comment : Option String) (now : String)
    (hd : (s.designs.find? (fun d => d.id == did)).isNone = false) :
    ((roleOf s did uid = none ∨ roleOf s did uid = some "viewer") →
      upsertApproval s aid did uid verdict comment now =
        .error .authorization) ∧
    (∀ s', upsertApproval s aid did uid verdict comment now = .ok s' →
      roleOf s did uid = some "owner" ∨ roleOf s did uid = some "editor" ∨
        roleOf s did uid = some "reviewer") := by
  constructor
  · intro hrole
    unfold upsertApproval
    rw [if_neg (by simp [hd])]
    rcases hrole with h1 | h1 <;> rw [h1]
    rfl
  · intro s' h
    unfold upsertApproval at h
    rw [if_neg (by simp [hd])] at h
    split at h
    · exact absurd h (by simp)
    · rename_i r heq
      split at h
      · rename_i ha
        unfold approverRole at ha
        simp only [Bool.or_eq_true, beq_iff_eq] at ha
        rw [heq]
        rcases ha with (h1 | h1) | h1 <;> simp [h1]
      · exact absurd h (by simp)

/-- Witness for C8: in `demoViewerStore`, user 9 was added with the default
(viewer) role and their approval submission is rejected. -/
theorem approval_requires_privileged_role_witness :
    upsertApproval demoViewerStore 20 1 9 "approved" none "t2" =
      .error ApiError.authorization :=
  (approval_requires_privileged_role demoViewerStore 20 1 9 "approved" none
    "t2" (by decide)).1 (Or.inr (by decide))

lemma versionNumbersOf_congr {s s' : Store}
    (hv : s'.designVersions = s.designVersions) (did : Nat) :
    versionNumbersOf s' did = versionNumbersOf s did := by
  unfold versionNumbersOf
  rw [hv]

lemma versionNumbersOf_of_append {s s' : Store} {l : List DesignVersion}
    (h : s'.designVersions = s.designVersions ++ l) (x : Nat) :
    versionNumbersOf s' x = versionNumbersOf s x ++
      (l.filter (fun v => v.designId == x)).map (fun v => v.versionNumber) := by
  unfold versionNumbersOf
  rw [h, List.filter_append, List.map_append]

lemma maxVersionNumber_eq (s : Store) (hinv : VersionInv s) (d : Design)
    (hdm : d ∈ s.designs) : maxVersionNumber s d.id = d.version :=
  foldr_max_of_interval _ _ (hinv.2 d hdm)

lemma versionInv_congr {s s' : Store} (hd : s'.designs = s.designs)
    (hv : s'.designVersions = s.designVersions) (hinv : VersionInv s) :
    VersionInv s' := by
  obtain ⟨href, hex⟩ := hinv
  constructor
  · intro v hvmem
    rw [hv] at hvmem
    obtain ⟨d, hdm, hid⟩ := href v hvmem
    exact ⟨d, by rw [hd]; exact hdm, hid⟩
  · intro d hdm k
    rw [hd] at hdm
    rw [versionNumbersOf_congr hv]
    exact hex d hdm k

lemma versionInv_map {s s' : Store} (f : Design → Design)
    (hfid : ∀ d, (f d).id = d.id) (hfver : ∀ d, (f d).version = d.version)
    (hd : s'.designs = s.designs.map f)
    (hv : s'.designVersions = s.designVersions) (hinv : VersionInv s) :
    VersionInv s' := by
  obtain ⟨href, hex⟩ := hinv
  constructor
  · intro v hvmem
    rw [hv] at hvmem
    obtain ⟨d, hdm, hid⟩ := href v hvmem
    refine ⟨f d, ?_, by rw [hfid]; exact hid⟩
    rw [hd]
    exact List.mem_map_of_mem f hdm
  · intro d' hdm k
    rw [hd] at hdm
    obtain ⟨d, hdm0, rfl⟩ := List.mem_map.mp hdm
    rw [versionNumbersOf_congr hv, hfid, hfver]
    exact hex d hdm0 k

lemma versionInv_createDesign (s : Store) (did vid : Nat) (title : String)
    (description : Option String) (imageUrl : String)
    (thumbnailUrl : Option String) (projectId : Option Nat) (uid : Nat)
    (now : String) (width height : Option Nat) (tags : List String)
    (hfresh : ∀ d ∈ s.designs, d.id ≠ did) (hinv : VersionInv s) :
    VersionInv (createDesign s did vid title description imageUrl
      thumbnailUrl projectId uid now width height tags) := by
  obtain ⟨href, hex⟩ := hinv
  have happ : (createDesign s did vid title description imageUrl thumbnailUrl
      projectId uid now width height tags).designVersions =
      s.designVersions ++
        [{ id := vid, designId := did, versionNumber := 1, imageUrl := imageUrl,
           thumbnailUrl := thumbnailUrl, createdBy := uid, createdAt := now,
           notes := none, width := width, height := height }] := rfl
  have hempty : versionNumbersOf s did = [] := by
    unfold versionNumbersOf
    rw [List.map_eq_nil_iff, List.filter_eq_nil_iff]
    intro v hv hbeq
    obtain ⟨d, hdm, hid⟩ := href v hv
    exact hfresh d hdm (hid.trans (by simpa using hbeq))
  constructor
  · intro v hvmem
    rw [happ] at hvmem
    rcases List.mem_append.mp hvmem with hvm | hvm
    · obtain ⟨d, hdm, hid⟩ := href v hvm
      exact ⟨d, List.mem_append.mpr (Or.inl hdm), hid⟩
    · rw [List.mem_singleton] at hvm
      subst hvm
      exact ⟨_, List.mem_append.mpr (Or.inr (List.mem_singleton.mpr rfl)), rfl⟩
  · intro d hdm k
    rcases List.mem_append.mp hdm with hdm0 | hdm0
    · have hne : d.id ≠ did := hfresh d hdm0
      rw [versionNumbersOf_of_append happ d.id]
      rw [show List.filter (fun v => v.designId == d.id)
          [({ id := vid, designId := did, versionNumber := 1,
              imageUrl := imageUrl, thumbnailUrl := thumbnailUrl,
              createdBy := uid, createdAt := now, notes := none,
              width := width, height := height } : DesignVersion)] = []
        from by simp [Ne.symm hne]]
      simpa using hex d hdm0 k
    · rw [List.mem_singleton] at hdm0
      subst hdm0
      rw [versionNumbersOf_of_append happ did]
      rw [hempty]
      simp
      omega

lemma versionInv_publish {s s' : Store} {vid did : Nat} {img : String}
    {th : Option String} {w hh : Option Nat} {notes : Option String}
    {uid : Nat} {now : String}
    (h : publishVersion s vid did img th w hh notes uid now = .ok s')
    (hinv : VersionInv s) : VersionInv s' := by
  obtain ⟨⟨d0, hd0, hd0id⟩, -, -, hvapp, hdmap⟩ := publishVersion_ok h
  obtain ⟨href, hex⟩ := hinv
  have hfid : ∀ d : Design,
      ((fun d => if d.id == did then
        { d with imageUrl := img, thumbnailUrl := th, width := w, height := hh,
                 version := maxVersionNumber s did + 1,
                 status := if (reviewersOf s did).isEmpty then d.status
                           else "in-review" }
      else d) d).id = d.id := by
    intro d
    by_cases hc : d.id == did <;> simp [hc]
  constructor
  · intro v hvmem
    rw [hvapp] at hvmem
    have hvd : ∃ d ∈ s.designs, d.id = v.designId := by
      rcases List.mem_append.mp hvmem with hvm | hvm
      · exact href v hvm
      · rw [List.mem_singleton] at hvm
        subst hvm
        exact ⟨d0, hd0, hd0id⟩
    obtain ⟨d, hdm, hdid⟩ := hvd
    refine ⟨(fun d => if d.id == did then
        { d with imageUrl := img, thumbnailUrl := th, width := w, height := hh,
                 version := maxVersionNumber s did + 1,
                 status := if (reviewersOf s did).isEmpty then d.status
                           else "in-review" }
      else d) d, ?_, ?_⟩
    · rw [hdmap]
      exact List.mem_map_of_mem _ hdm
    · rw [hfid d]
      exact hdid
  · intro d' hdm' k
    rw [hdmap] at hdm'
    obtain ⟨d, hdm0, rfl⟩ := List.mem_map.mp hdm'
    have hvn := versionNumbersOf_of_append hvapp
    by_cases hc : (d.id == did) = true
    · have hdid : d.id = did := by simpa using hc
      have hdev : d.version = maxVersionNumber s did := by
        rw [← maxVersionNumber_eq s ⟨href, hex⟩ d hdm0, hdid]
      have hold := hex d hdm0
      rw [hdid] at hold
      rw [if_pos hc]
      show k ∈ versionNumbersOf s' d.id ↔
        1 ≤ k ∧ k ≤ maxVersionNumber s did + 1
      rw [hdid, hvn did]
      rw [show List.filter (fun v => v.designId == did)
          [({ id := vid, designId := did,
              versionNumber := maxVersionNumber s did + 1, imageUrl := img,
              thumbnailUrl := th, createdBy := uid, createdAt := now,
              notes := notes, width := w, height := hh } : DesignVersion)] =
          [{ id := vid, designId := did,
             versionNumber := maxVersionNumber s did + 1, imageUrl := img,
             thumbnailUrl := th, createdBy := uid, createdAt := now,
             notes := notes, width := w, height := hh }] from by simp]
      simp only [List.map_cons, List.map_nil, List.mem_append,
        List.mem_singleton]
      rw [← hdev]
      constructor
      · rintro (hk | hk)
        · have := (hold k).mp hk
          omega
        · omega
      · intro hk
        by_cases hke : k = d.version + 1
        · exact Or.inr (by rw [hke, hdev])
        · exact Or.inl ((hold k).mpr (by omega))
    · have hne : d.id ≠ did := by simpa using hc
      rw [if_neg hc]
      rw [hvn d.id]
      rw [show List.filter (fun v => v.designId == d.id)
          [({ id := vid, designId := did,
              versionNumber := maxVersionNumber s did + 1, imageUrl := img,
              thumbnailUrl := th, createdBy := uid, createdAt := now,
              notes := notes, width := w, height := hh } : DesignVersion)] = []
        from by simp [Ne.symm hne]]
      simpa using hex d hdm0 k

lemma reachable_versionInv {s : Store} (hr : Reachable s) : VersionInv s := by
  induction hr with
  | init =>
    constructor
    · intro v hv
      simp [Store.empty] at hv
    · intro d hd
      simp [Store.empty] at hd
  | step hr hstep ih =>
    cases hstep with
    | createDesign did vid title description imageUrl thumbnailUrl
        projectId uid now width height tags hfresh =>
      exact versionInv_createDesign _ did vid title description imageUrl
        thumbnailUrl projectId uid now width height tags hfresh ih
    | publishVersion s' vid did imageUrl thumbnailUrl width height notes
        uid now h =>
      exact versionInv_publish h ih
    | upsertApproval s' aid did uid verdict comment now h =>
      obtain ⟨-, hvers, -, hdes⟩ := upsertApproval_ok h
      rcases hdes with hdes | ⟨st, hdes⟩
      · exact versionInv_congr hdes hvers ih
      · exact versionInv_map
          (fun d => if d.id == did then { d with status := st } else d)
          (fun d => by by_cases hc : d.id == did <;> simp [hc])
          (fun d => by by_cases hc : d.id == did <;> simp [hc])
          hdes hvers ih
    | addCollaborator id p =>
      exact versionInv_congr rfl rfl ih
    | createAnn s' aid did uid content x y shape path now h =>
      rw [createAnn_ok h]
      exact versionInv_congr rfl rfl ih
    | resolveAnn aid uid note now =>
      exact versionInv_congr rfl rfl ih
    | reopenAnn s' aid uid h =>
      rw [reopenAnn_ok h]
      exact versionInv_congr rfl rfl ih
    | addReply aid uid content now =>
      exact versionInv_congr rfl rfl ih
    | updateAnn aid content x y width height color now =>
      exact versionInv_congr rfl rfl ih

/-- C2: at every reachable store, for every design row, the set of version
numbers of its `design_versions` rows is exactly the gap-free interval
1 .. version, and the design\'s `version` field equals the highest existing
version number for it. -/
theorem designVersion_sequence (s : Store) (hr : Reachable s) (d : Design)
    (hd : d ∈ s.designs) :
    (versionNumbersOf s d.id).toFinset = Finset.Icc 1 d.version ∧
    maxVersionNumber s d.id = d.version := by
  have hiff := (reachable_versionInv hr).2 d hd
  constructor
  · ext k
    rw [List.mem_toFinset, Finset.mem_Icc]
    exact hiff k
  · exact foldr_max_of_interval _ _ hiff

/-- Witness for C2 at the concrete reachable store `demoStore` (one design,
created with its initial version row). -/
theorem designVersion_sequence_witness :
    (versionNumbersOf demoStore demoDesign.id).toFinset =
      Finset.Icc 1 demoDesign.version ∧
    maxVersionNumber demoStore demoDesign.id = demoDesign.version :=
  designVersion_sequence demoStore
    (Reachable.step Reachable.init
      (Step.createDesign Store.empty 1 1 "Landing" none "img1" none none 7
        "t0" none none [] (by intro d hd; simp [Store.empty] at hd)))
    demoDesign (by decide)

lemma annInv_congr {s s' : Store} (h : s'.annotations = s.annotations)
    (hi : AnnInv s) : AnnInv s' := by
  intro a ha
  rw [h] at ha
  exact hi a ha

lemma annInv_map {s s' : Store} (f : AnnotationRow → AnnotationRow)
    (hf : ∀ a, ResolutionConsistent a → ResolutionConsistent (f a))
    (h : s'.annotations = s.annotations.map f) (hi : AnnInv s) : AnnInv s' := by
  intro a ha
  rw [h] at ha
  obtain ⟨b, hb, rfl⟩ := List.mem_map.mp ha
  exact hf b (hi b hb)

lemma resolutionConsistent_resolveRow (a : AnnotationRow) (uid : Nat)
    (note : Option String) (now : String) (hc : ResolutionConsistent a) :
    ResolutionConsistent (resolveRow a uid note now) := by
  by_cases hr : a.resolved
  · rw [resolveRow_of_resolved a uid note now hr]
    exact hc
  · unfold resolveRow
    rw [if_neg hr]
    exact ⟨fun _ => ⟨by simp, by simp⟩, fun hfalse => by simp at hfalse⟩

lemma reachable_annInv {s : Store} (hr : Reachable s) : AnnInv s := by
  induction hr with
  | init =>
    intro a ha
    simp [Store.empty] at ha
  | step hr hstep ih =>
    cases hstep with
    | createDesign did vid title description imageUrl thumbnailUrl
        projectId uid now width height tags hfresh =>
      exact annInv_congr rfl ih
    | publishVersion s' vid did imageUrl thumbnailUrl width height notes
        uid now h =>
      obtain ⟨-, hann, -, -, -⟩ := publishVersion_ok h
      exact annInv_congr hann ih
    | upsertApproval s' aid did uid verdict comment now h =>
      obtain ⟨hann, -, -, -⟩ := upsertApproval_ok h
      exact annInv_congr hann ih
    | addCollaborator id p =>
      exact annInv_congr rfl ih
    | createAnn s' aid did uid content x y shape path now h =>
      rw [createAnn_ok h]
      intro a ha
      rcases List.mem_append.mp ha with ha0 | ha0
      · exact ih a ha0
      · rw [List.mem_singleton] at ha0
        subst ha0
        exact ⟨fun hfalse => by simp at hfalse, fun _ => ⟨rfl, rfl⟩⟩
    | resolveAnn aid uid note now =>
      refine annInv_map _ ?_ rfl ih
      intro a hc
      by_cases hid : a.id == aid
      · rw [if_pos hid]
        exact resolutionConsistent_resolveRow a uid note now hc
      · rw [if_neg hid]
        exact hc
    | reopenAnn s' aid uid h =>
      rw [reopenAnn_ok h]
      refine annInv_map _ ?_ rfl ih
      intro a hc
      by_cases hid : a.id == aid
      · rw [if_pos hid]
        exact ⟨fun hfalse => by simp at hfalse, fun _ => ⟨rfl, rfl⟩⟩
      · rw [if_neg hid]
        exact hc
    | addReply aid uid content now =>
      refine annInv_map _ ?_ rfl ih
      intro a hc
      by_cases hid : a.id == aid
      · rw [if_pos hid]
        exact hc
      · rw [if_neg hid]
        exact hc
    | updateAnn aid content x y width height color now =>
      refine annInv_map _ ?_ rfl ih
      intro a hc
      by_cases hid : a.id == aid
      · rw [if_pos hid]
        exact hc
      · rw [if_neg hid]
        exact hc

/-- C6: at every reachable store, every annotation row is
resolution-consistent: resolved rows carry a resolver and a timestamp;
unresolved rows carry neither.  Every operation of the subsystem preserves
this. -/
theorem resolved_fields_consistent (s : Store) (hr : Reachable s)
    (a : AnnotationRow) (ha : a ∈ s.annotations) :
    (a.resolved = true → a.resolvedBy ≠ none ∧ a.resolvedAt ≠ none) ∧
    (a.resolved = false → a.resolvedBy = none ∧ a.resolvedAt = none) :=
  reachable_annInv hr a ha

/-- Witness for C6: the annotation created on design 1 in the reachable
store `demoS3`. -/
theorem resolved_fields_consistent_witness :
    (({ id := 10, designId := 1, userId := 7, content := "looks off", x := 3,
        y := 4, width := 150, height := 80, color := "#FF5733",
        createdAt := "t1", updatedAt := none, resolved := false,
        resolvedBy := none, resolvedAt := none, shape := "rectangle",
        pathData := none, replies := [] } : AnnotationRow).resolved = true →
      ({ id := 10, designId := 1, userId := 7, content := "looks off", x := 3,
         y := 4, width := 150, height := 80, color := "#FF5733",
         createdAt := "t1", updatedAt := none, resolved := false,
         resolvedBy := none, resolvedAt := none, shape := "rectangle",
         pathData := none, replies := [] } : AnnotationRow).resolvedBy ≠ none ∧
      ({ id := 10, designId := 1, userId := 7, content := "looks off", x := 3,
         y := 4, width := 150, height := 80, color := "#FF5733",
         createdAt := "t1", updatedAt := none, resolved := false,
         resolvedBy := none, resolvedAt := none, shape := "rectangle",
         pathData := none, replies := [] } : AnnotationRow).resolvedAt ≠ none) ∧
    (({ id := 10, designId := 1, userId := 7, content := "looks off", x := 3,
        y := 4, width := 150, height := 80, color := "#FF5733",
        createdAt := "t1", updatedAt := none, resolved := false,
        resolvedBy := none, resolvedAt := none, shape := "rectangle",
        pathData := none, replies := [] } : AnnotationRow).resolved = false →
      ({ id := 10, designId := 1, userId := 7, content := "looks off", x := 3,
         y := 4, width := 150, height := 80, color := "#FF5733",
         createdAt := "t1", updatedAt := none, resolved := false,
         resolvedBy := none, resolvedAt := none, shape := "rectangle",
         pathData := none, replies := [] } : AnnotationRow).resolvedBy = none ∧
      ({ id := 10, designId := 1, userId := 7, content := "looks off", x := 3,
         y := 4, width := 150, height := 80, color := "#FF5733",
         createdAt := "t1", updatedAt := none, resolved := false,
         resolvedBy := none, resolvedAt := none, shape := "rectangle",
         pathData := none, replies := [] } : AnnotationRow).resolvedAt = none) :=
  resolved_fields_consistent demoS3
    (Reachable.step
      (Reachable.step
        (Reachable.step Reachable.init
          (Step.createDesign Store.empty 1 1 "Landing" none "img1" none none
            7 "t0" none none [] (by intro d hd; simp [Store.empty] at hd)))
        (Step.addCollaborator demoStore 1 demoCollab))
      (Step.createAnn demoS2 demoS3 10 1 7 "looks off" 3 4 "rectangle" none
        "t1" (by rfl)))
    { id := 10, designId := 1, userId := 7, content := "looks off", x := 3,
      y := 4, width := 150, height := 80, color := "#FF5733",
      createdAt := "t1", updatedAt := none, resolved := false,
      resolvedBy := none, resolvedAt := none, shape := "rectangle",
      pathData := none, replies := [] }
    (by decide)
